import Mathlib

/-!
Shallow embedding of the generic data-access layer of the inventory
application (class `Database`, files `include/database.hpp` and
`database.cpp`): the SQL text builders of `insert`, `update` and `remove`,
their parameter-binding loops, and the schema initializer `init`.

C++ `std::string` is modelled by `String`, `std::map` iteration by a list of
key/getter pairs traversed in list order (for `std::map` that order is the
sorted key order), `std::variant<std::string, int, double>` by the inductive
`Value` (the `double` payload is carried opaquely as `Rat`: the layer never
computes with it, it only passes it to the store), and the SQLite connection
by an abstract store interface `Sqlite3`.
-/

set_option maxRecDepth 8000

namespace InventoryDb

/-- Model of C++ `std::string::pop_back`: drops the last character; calling it
on an empty string is undefined behaviour, modelled as `none`. -/
def popBack (s : String) : Option String :=
  if s.isEmpty then none else some (s.dropRight 1)

/-- Model of `std::variant<std::string, int, double>`, the value type the
field-mapping getters return (`database.hpp`, line 95). It has exactly the
three alternatives of the variant; the `double` payload is opaque here. -/
inductive Value where
  | str (s : String)
  | int (i : Int)
  | real (r : Rat)
deriving DecidableEq, Repr

/-- A parameter as handed to the SQLite binding API. `pNull` is present
because the API offers `sqlite3_bind_null`; whether the program ever calls
it is a property to settle, not an assumption. -/
inductive SqlParam where
  | pInt (i : Int)
  | pDouble (r : Rat)
  | pText (s : String)
  | pNull
deriving DecidableEq, Repr

/-- The branch chain of the binding loops (`database.hpp`, lines 119–126 and
193–200): `holds_alternative<int>` binds with `sqlite3_bind_int`, then
`double` with `sqlite3_bind_double`, then `std::string` with
`sqlite3_bind_text`. Every alternative of the variant hits exactly one
branch. -/
def bindValue (v : Value) : SqlParam :=
  match v with
  | Value.int i => SqlParam.pInt i
  | Value.real r => SqlParam.pDouble r
  | Value.str s => SqlParam.pText s

/-- The field mapping `std::map<std::string, std::function<variant(const T&)>>`,
as the sequence of (column name, getter) pairs its iteration yields. -/
def FieldMapping (T : Type) : Type := List (String × (T → Value))

/-- The column names of a field mapping, in iteration order. -/
def keysOf {T : Type} (m : FieldMapping T) : List String :=
  List.map Prod.fst m

/-- The SQL text `Database::insert` constructs (`database.hpp`, lines
96–106): start from `"INSERT INTO " + tableName + "( "` and `" VALUES ("`,
append `columnName + ","` resp. `"?, "` per mapping entry, `pop_back` each
string once, then concatenate. `none` would mean a `pop_back` on an empty
string (undefined behaviour). -/
def insertSqlBuild {T : Type} (tableName : String) (m : FieldMapping T) : Option String :=
  let sql := List.foldl (fun acc f => acc ++ f.1 ++ ",") ("INSERT INTO " ++ tableName ++ "( ") m
  let placeholders := List.foldl (fun acc _ => acc ++ "?, ") " VALUES (" m
  match popBack sql, popBack placeholders with
  | some sql2, some ph2 => some (sql2 ++ ph2)
  | _, _ => none

/-- The SQL text `Database::update` constructs (`database.hpp`, lines
173–180): start from `"UPDATE " + tableName + " SET "`, append
`columnName + "?, "` per mapping entry, `pop_back` twice, then append
`" WHERE id = ?;"`. -/
def updateSqlBuild {T : Type} (tableName : String) (m : FieldMapping T) : Option String :=
  let sql := List.foldl (fun acc f => acc ++ f.1 ++ "?, ") ("UPDATE " ++ tableName ++ " SET ") m
  match popBack sql with
  | none => none
  | some s1 =>
    match popBack s1 with
    | none => none
    | some s2 => some (s2 ++ " WHERE id = ?;")

/-- The INSERT statement text as the specification describes it: column list
and VALUES list each closed with a parenthesis, no trailing comma, one
placeholder per key. Used only to compare the code's builder against the
spec's words. -/
def insertSqlSpec (tableName : String) (keys : List String) : String :=
  "INSERT INTO " ++ tableName ++ " (" ++ String.intercalate ", " keys ++ ") VALUES (" ++
    String.intercalate ", " (List.map (fun _ => "?") keys) ++ ")"

/-- The UPDATE statement text as the specification describes it: each column
name followed by " = ?", separated by ", ", then the WHERE clause. Used only
to compare the code's builder against the spec's words. -/
def updateSqlSpec (tableName : String) (keys : List String) : String :=
  "UPDATE " ++ tableName ++ " SET " ++
    String.intercalate ", " (List.map (fun c => c ++ " = ?") keys) ++ " WHERE id = ?"

/-- The binding loops of `insert` and `update` (`database.hpp`, lines
114–127 and 188–201): starting from parameter index `start` (the code uses
1), each mapping entry extracts `getter(data)` and binds it at the current
index, incrementing the index exactly once per entry (each variant
alternative fires exactly one branch of the chain). Returns the final index
and the (index, parameter) pairs in loop order. -/
def bindParams {T : Type} (m : FieldMapping T) (data : T) (start : Nat) :
    Nat × List (Nat × SqlParam) :=
  match m with
  | [] => (start, [])
  | f :: rest =>
    let r := bindParams rest data (start + 1)
    (r.1, (start, bindValue (f.2 data)) :: r.2)

/-- Abstract model of the SQLite connection as seen through the calls the
mapper makes: `prepare` says whether `sqlite3_prepare_v2` accepts a
statement text; `step` runs a prepared statement with its bound parameters
on store state `s`, yielding `none` when `sqlite3_step` does not return
`SQLITE_DONE` and otherwise the new state together with `sqlite3_changes`
(the number of affected rows). `zeroChangesFix` is the store-semantics
fact that a data-modifying statement that affected zero rows left the
state unchanged. -/
structure Sqlite3 (σ : Type) where
  prepare : String → Bool
  step : String → List (Nat × SqlParam) → σ → Option (σ × Nat)
  zeroChangesFix : ∀ q ps s s' , step q ps s = some (s' , 0) → s' = s

/-- `Database::update` (`database.hpp`, lines 171–218): build the SQL text,
fail (logging) when preparation fails, bind the mapping's values at indices
1.. then the id at the next index, fail (logging) when execution fails;
when execution succeeds with zero affected rows, log the warning and still
return `true`. Returns (result, final store state, messages written to
`std::cerr`). The `none` branch of the builder marks the undefined
behaviour of a `pop_back` on an empty string and is proved unreachable. -/
def updateImpl {σ T : Type} (conn : Sqlite3 σ) (s : σ) (tableName : String) (id : Int)
    (data : T) (m : FieldMapping T) : Bool × σ × List String :=
  match updateSqlBuild tableName m with
  | none => (false, s, ["pop_back on empty string"])
  | some sql =>
    if conn.prepare sql then
      let b := bindParams m data 1
      match conn.step sql (b.2 ++ [(b.1, SqlParam.pInt id)]) s with
      | none => (false, s, ["Error executing update statement: "])
      | some (s' , changes) =>
        if changes = 0 then (true, s' , ["No rows were updated. Check if the ID exists."])
        else (true, s' , [])
    else (false, s, ["Error preparing UPDATE statement: "])

/-- Modelled from the spec: `Database::remove` is declared in
`database.hpp` (line 238) but its definition (the repository's
`src/database.cpp` body for it) is not among the provided sources. Per the
spec it builds `DELETE FROM table WHERE id = ?`. -/
def removeSql (tableName : String) : String :=
  "DELETE FROM " ++ tableName ++ " WHERE id = ?"

/-- Modelled from the spec: `Database::remove` — builds
`DELETE FROM table WHERE id = ?`, binds the id, executes; fails when the
store rejects preparation or execution, and does not inspect the number of
affected rows (so "no such id" and "deleted" both report success). -/
def removeImpl {σ : Type} (conn : Sqlite3 σ) (s : σ) (tableName : String) (id : Int) :
    Bool × σ × List String :=
  if conn.prepare (removeSql tableName) then
    match conn.step (removeSql tableName) [(1, SqlParam.pInt id)] s with
    | none => (false, s, ["Error executing delete statement: "])
    | some (s' , _) => (true, s' , [])
  else (false, s, ["Error preparing delete statement: "])

/-! The schema initializer `Database::init` (`database.cpp`, lines 16–107):
the six statement texts it executes through `sqlite3_exec`, each with the
error message logged when that statement fails. -/

/-- The statement enabling foreign-key enforcement (`database.cpp`, line 21). -/
def pragmaForeignKeys : String := "PRAGMA foreign_keys = ON;"

/-- The category table creation statement (`database.cpp`, lines 30–33). -/
def categoryTableQuery : String :=
  "CREATE TABLE IF NOT EXISTS category (" ++
  "id INTEGER PRIMARY KEY AUTOINCREMENT, " ++
  "name TEXT NOT NULL, " ++
  "description TEXT NOT NULL);"

/-- The supplier table creation statement (`database.cpp`, lines 43–48). -/
def supplierTableQuery : String :=
  "CREATE TABLE IF NOT EXISTS suppliers (" ++
  "id INTEGER PRIMARY KEY AUTOINCREMENT, " ++
  "name TEXT NOT NULL, " ++
  "address TEXT NOT NULL, " ++
  "phone TEXT, " ++
  "email TEXT);"

/-- The item table creation statement (`database.cpp`, lines 58–70). -/
def itemTableQuery : String :=
  "CREATE TABLE IF NOT EXISTS item (" ++
  "id INTEGER PRIMARY KEY AUTOINCREMENT, " ++
  "name TEXT NOT NULL, " ++
  "description TEXT NOT NULL, " ++
  "category_id INTEGRE NOT NULL, " ++
  "quantity INTEGER NOT NULL, " ++
  "unit_measurement TEXT NOT NULL, " ++
  "unit_price REAL NOT NULL, " ++
  "price REAL NOT NULL, " ++
  "supplier_id INTEGER NOT NULL, " ++
  "FOREIGN KEY(category_id) REFERENCES category(id), " ++
  "FOREIGN KEY(supplier_id) REFERENCES suppliers(id)" ++
  ");"

/-- The user table creation statement (`database.cpp`, lines 77–83). -/
def userTableQuery : String :=
  "CREATE TABLE IF NOT EXISTS user (" ++
  "id INTEGER PRIMARY KEY AUTOINCREMENT, " ++
  "username TEXT NOT NULL, " ++
  "password TEXT NOT NULL, " ++
  "role TEXT NOT NULL, " ++
  "contact_info TEXT NOT NULL" ++
  ");"

/-- The transaction-record table creation statement (`database.cpp`, lines 91–101). -/
def transactionTableQuery : String :=
  "CREATE TABLE IF NOT EXISTS transaction_records (" ++
  "id INTEGER PRIMARY KEY AUTOINCREMENT, " ++
  "item_id INTEGER NOT NULL, " ++
  "transaction_type TEXT NOT NULL, " ++
  "quantity INTEGER NOT NULL, " ++
  "transaction_date TEXT NOT NULL, " ++
  "user_id INTEGER NOT NULL, " ++
  "remarks TEXT, " ++
  "FOREIGN KEY(item_id) REFERENCES item(id), " ++
  "FOREIGN KEY(user_id) REFERENCES user(id)" ++
  ");"

/-- The statements `init` executes, in source order, each paired with the
error-message text it writes to `std::cerr` when that statement fails. -/
def initStmtList : List (String × String) :=
  [(pragmaForeignKeys, "Error enabling foreign keys: "),
   (categoryTableQuery, "Error Creating Category Table: "),
   (supplierTableQuery, "Error Creating Supplier Table: "),
   (itemTableQuery, "Error Creating Items Table: "),
   (userTableQuery, "Error Creating User Table: "),
   (transactionTableQuery, "Error Creating Transaction Table: ")]

/-- The store-file state `init` acts on: whether foreign-key enforcement is
enabled on the connection, and which tables exist. -/
structure DbFile where
  fkEnabled : Bool
  tables : List String
deriving DecidableEq, Repr

/-- The control flow of `init`: execute each statement in order through an
abstract `sqlite3_exec` (`none` = failure, in which case the state is kept);
a failure logs that statement's error message and execution proceeds to the
next statement (no early abort, mirroring the six independent `if` blocks
of `database.cpp`). Returns the final state, the trace of (statement,
message) entries attempted with their success flag, and the logged
messages. -/
def runStmts (exec : String → DbFile → Option DbFile) :
    List (String × String) → DbFile → DbFile × List ((String × String) × Bool) × List String
  | [], s => (s, [], [])
  | stmt :: rest, s =>
    match exec stmt.1 s with
    | some s' =>
      let r := runStmts exec rest s'
      (r.1, (stmt, true) :: r.2.1, r.2.2)
    | none =>
      let r := runStmts exec rest s
      (r.1, (stmt, false) :: r.2.1, stmt.2 :: r.2.2)

/-- `Database::init` over an abstract `sqlite3_exec`. -/
def initRun (exec : String → DbFile → Option DbFile) (s : DbFile) :
    DbFile × List ((String × String) × Bool) × List String :=
  runStmts exec initStmtList s

/-- Add a table to the schema when absent (SQLite's behaviour for
`CREATE TABLE IF NOT EXISTS`). -/
def ensure (t : String) (l : List String) : List String :=
  if t ∈ l then l else l ++ [t]

/-- The table name following the words `CREATE TABLE IF NOT EXISTS ` (27
characters), when the statement is of that form. -/
def createdTable (q : String) : Option String :=
  let p := "CREATE TABLE IF NOT EXISTS ".toList
  let l := q.toList
  if List.isPrefixOf p l then
    some (String.mk (List.takeWhile (fun c => c ≠ ' ') (List.drop 27 l)))
  else none

/-- SQLite's semantics of the statements `init` issues: the pragma enables
foreign-key enforcement on the connection; a `CREATE TABLE IF NOT EXISTS`
adds the table when absent and is a successful no-op when it already
exists; anything else is rejected. -/
def sqliteExec (q : String) (s : DbFile) : Option DbFile :=
  if q = pragmaForeignKeys then some { s with fkEnabled := true }
  else
    match createdTable q with
    | some t => some { s with tables := ensure t s.tables }
    | none => none

/-- The insert builder expressed over the key list alone; proved equal to
`insertSqlBuild` (whose SQL loop reads only the column names). -/
def insertKeySql (tableName : String) (keys : List String) : Option String :=
  let sql := List.foldl (fun acc k => acc ++ k ++ ",") ("INSERT INTO " ++ tableName ++ "( ") keys
  let placeholders := List.foldl (fun acc _ => acc ++ "?, ") " VALUES (" keys
  match popBack sql, popBack placeholders with
  | some sql2, some ph2 => some (sql2 ++ ph2)
  | _, _ => none

/-- The update builder expressed over the key list alone; proved equal to
`updateSqlBuild`. -/
def updateKeySql (tableName : String) (keys : List String) : Option String :=
  let sql := List.foldl (fun acc k => acc ++ k ++ "?, ") ("UPDATE " ++ tableName ++ " SET ") keys
  match popBack sql with
  | none => none
  | some s1 =>
    match popBack s1 with
    | none => none
    | some s2 => some (s2 ++ " WHERE id = ?;")

/-- A concrete field mapping for the category table over a (name,
description) pair, as the CLI layer would supply it: `std::map` yields its
keys in sorted order, so "description" comes before "name". -/
def demoCategoryMapping : FieldMapping (String × String) :=
  [("description", fun r => Value.str r.2), ("name", fun r => Value.str r.1)]

/-- A second mapping with the same column names but a different record type
and different getters, for comparing the SQL texts of two calls. -/
def demoCategoryMappingB : FieldMapping Int :=
  [("description", fun n => Value.int n), ("name", fun n => Value.real n)]

/-- A concrete store that accepts every statement and reports zero affected
rows, leaving the state untouched. -/
def acceptAllConn : Sqlite3 Nat where
  prepare := fun _ => true
  step := fun _ _ s => some (s, 0)
  zeroChangesFix := by intro q ps s s' h; simpa using h.symm

/-- The concatenation the column-list loop of `insert` appends: each column
name followed by a comma, in order. -/
def colsConcat : List String → String
  | [] => ""
  | k :: ks => k ++ "," ++ colsConcat ks

/-! Helper lemmas. -/

/-- The binding loop produces one parameter per mapping entry: the entry at
position `i` is bound at parameter index `start + i` and carries the value
the entry's getter extracts. -/
theorem bindParams_get? {T : Type} (m : FieldMapping T) (data : T) (start i : Nat) :
    List.get? (bindParams m data start).2 i =
      Option.map (fun f => (start + i, bindValue (f.2 data))) (List.get? m i) := by
  induction m generalizing start i with
  | nil => simp [bindParams]
  | cons f rest ih =>
    cases i with
    | zero => simp [bindParams]
    | succ j =>
      simp only [bindParams, List.get?]
      rw [ih]
      cases List.get? rest j <;> simp [Nat.add_assoc, Nat.add_comm 1 j]

/-- The binding loop never hands the store a null parameter: every variant
alternative is bound as integer, real or text. -/
theorem bindParams_no_null {T : Type} (m : FieldMapping T) (data : T) (start : Nat) :
    List.filter (fun p => p.2 == SqlParam.pNull) (bindParams m data start).2 = [] := by
  induction m generalizing start with
  | nil => rfl
  | cons f rest ih =>
    simp only [bindParams, List.filter]
    cases hv : f.2 data <;> simp [bindValue, ih] <;> rfl

/-- The column-list loop of `insert` reads only the column names. -/
theorem foldl_cols_keys {T : Type} (m : FieldMapping T) (a : String) :
    List.foldl (fun acc f => acc ++ f.1 ++ ",") a m =
      List.foldl (fun acc k => acc ++ k ++ ",") a (keysOf m) := by
  induction m generalizing a with
  | nil => rfl
  | cons f rest ih => simpa [keysOf] using ih (a ++ f.1 ++ ",")

/-- The placeholder loop of `insert` reads nothing from the entries. -/
theorem foldl_ph_keys {T : Type} (m : FieldMapping T) (a : String) :
    List.foldl (fun acc (_ : String × (T → Value)) => acc ++ "?, ") a m =
      List.foldl (fun acc (_ : String) => acc ++ "?, ") a (keysOf m) := by
  induction m generalizing a with
  | nil => rfl
  | cons f rest ih => simpa [keysOf] using ih (a ++ "?, ")

/-- The SET-clause loop of `update` reads only the column names. -/
theorem foldl_set_keys {T : Type} (m : FieldMapping T) (a : String) :
    List.foldl (fun acc f => acc ++ f.1 ++ "?, ") a m =
      List.foldl (fun acc k => acc ++ k ++ "?, ") a (keysOf m) := by
  induction m generalizing a with
  | nil => rfl
  | cons f rest ih => simpa [keysOf] using ih (a ++ f.1 ++ "?, ")

/-- The insert SQL text is a function of the table name and the key list. -/
theorem insertSqlBuild_keys {T : Type} (t : String) (m : FieldMapping T) :
    insertSqlBuild t m = insertKeySql t (keysOf m) := by
  simp only [insertSqlBuild, insertKeySql, foldl_cols_keys, foldl_ph_keys]

/-- The update SQL text is a function of the table name and the key list. -/
theorem updateSqlBuild_keys {T : Type} (t : String) (m : FieldMapping T) :
    updateSqlBuild t m = updateKeySql t (keysOf m) := by
  simp only [updateSqlBuild, updateKeySql, foldl_set_keys]

/-- Two strictly sorted lists with the same members are equal (the key
sequence of a `std::map` is determined by its key set). -/
theorem sorted_mem_eq {l₁ l₂ : List String}
    (h₁ : List.Sorted (fun a b : String => a < b) l₁)
    (h₂ : List.Sorted (fun a b : String => a < b) l₂)
    (hmem : ∀ a, a ∈ l₁ ↔ a ∈ l₂) : l₁ = l₂ :=
  List.eq_of_perm_of_sorted
    ((List.perm_ext_iff_of_nodup h₁.nodup h₂.nodup).mpr hmem) h₁ h₂

/-- Every statement handed to `runStmts` is attempted, in list order,
whatever `exec` returns: no failure aborts the sequence. -/
theorem runStmts_trace (exec : String → DbFile → Option DbFile)
    (stmts : List (String × String)) (s : DbFile) :
    List.map Prod.fst (runStmts exec stmts s).2.1 = stmts := by
  induction stmts generalizing s with
  | nil => rfl
  | cons stmt rest ih =>
    simp only [runStmts]
    cases exec stmt.1 s <;> simp [ih]

/-- The messages `runStmts` logs are exactly the error messages of the
statements whose execution failed, in order. -/
theorem runStmts_log (exec : String → DbFile → Option DbFile)
    (stmts : List (String × String)) (s : DbFile) :
    (runStmts exec stmts s).2.2 =
      List.map (fun p => p.1.2)
        (List.filter (fun p => p.2 == false) (runStmts exec stmts s).2.1) := by
  induction stmts generalizing s with
  | nil => rfl
  | cons stmt rest ih =>
    simp only [runStmts]
    cases exec stmt.1 s <;> simp [ih]

/-- A table is present after `ensure`-ing it. -/
theorem mem_ensure_self (t : String) (l : List String) : t ∈ ensure t l := by
  by_cases h : t ∈ l <;> simp [ensure, h]

/-- `ensure` keeps every table that was present. -/
theorem mem_ensure_mono {u : String} (t : String) {l : List String} (h : u ∈ l) :
    u ∈ ensure t l := by
  by_cases ht : t ∈ l <;> simp [ensure, ht, h]

/-- `ensure`-ing a table that is present is a no-op. -/
theorem ensure_eq_of_mem {t : String} {l : List String} (h : t ∈ l) : ensure t l = l := by
  simp [ensure, h]

/-- The pragma enables foreign-key enforcement and succeeds. -/
theorem sqliteExec_pragma (s : DbFile) :
    sqliteExec pragmaForeignKeys s = some { s with fkEnabled := true } := by
  simp [sqliteExec]

/-- The category creation statement adds its table when absent and succeeds. -/
theorem sqliteExec_category (s : DbFile) :
    sqliteExec categoryTableQuery s = some { s with tables := ensure "category" s.tables } := by
  have h1 : (categoryTableQuery = pragmaForeignKeys) = False := by decide
  have h2 : createdTable categoryTableQuery = some "category" := by decide
  simp [sqliteExec, h1, h2]

/-- The supplier creation statement adds its table when absent and succeeds. -/
theorem sqliteExec_suppliers (s : DbFile) :
    sqliteExec supplierTableQuery s = some { s with tables := ensure "suppliers" s.tables } := by
  have h1 : (supplierTableQuery = pragmaForeignKeys) = False := by decide
  have h2 : createdTable supplierTableQuery = some "suppliers" := by decide
  simp [sqliteExec, h1, h2]

/-- The item creation statement adds its table when absent and succeeds. -/
theorem sqliteExec_item (s : DbFile) :
    sqliteExec itemTableQuery s = some { s with tables := ensure "item" s.tables } := by
  have h1 : (itemTableQuery = pragmaForeignKeys) = False := by decide
  have h2 : createdTable itemTableQuery = some "item" := by decide
  simp [sqliteExec, h1, h2]

/-- The user creation statement adds its table when absent and succeeds. -/
theorem sqliteExec_user (s : DbFile) :
    sqliteExec userTableQuery s = some { s with tables := ensure "user" s.tables } := by
  have h1 : (userTableQuery = pragmaForeignKeys) = False := by decide
  have h2 : createdTable userTableQuery = some "user" := by decide
  simp [sqliteExec, h1, h2]

/-- The transaction-record creation statement adds its table when absent and
succeeds. -/
theorem sqliteExec_transaction (s : DbFile) :
    sqliteExec transactionTableQuery s =
      some { s with tables := ensure "transaction_records" s.tables } := by
  have h1 : (transactionTableQuery = pragmaForeignKeys) = False := by decide
  have h2 : createdTable transactionTableQuery = some "transaction_records" := by decide
  simp [sqliteExec, h1, h2]

/-- Running `init` against the modelled SQLite semantics: foreign keys end
up enabled, each of the five tables is added when absent, and nothing is
logged. -/
theorem initRun_sqliteExec (s : DbFile) :
    initRun sqliteExec s =
      (⟨true, ensure "transaction_records" (ensure "user" (ensure "item"
          (ensure "suppliers" (ensure "category" s.tables))))⟩,
       [((pragmaForeignKeys, "Error enabling foreign keys: "), true),
        ((categoryTableQuery, "Error Creating Category Table: "), true),
        ((supplierTableQuery, "Error Creating Supplier Table: "), true),
        ((itemTableQuery, "Error Creating Items Table: "), true),
        ((userTableQuery, "Error Creating User Table: "), true),
        ((transactionTableQuery, "Error Creating Transaction Table: "), true)],
       []) := by
  simp [initRun, initStmtList, runStmts, sqliteExec_pragma, sqliteExec_category,
    sqliteExec_suppliers, sqliteExec_item, sqliteExec_user, sqliteExec_transaction]

/-- The column-list loop of `insert` appends exactly the mapping's column
names, each followed by a comma, in iteration order. -/
theorem insert_cols_concat {T : Type} (m : FieldMapping T) (a : String) :
    List.foldl (fun acc f => acc ++ f.1 ++ ",") a m = a ++ colsConcat (keysOf m) := by
  induction m generalizing a with
  | nil => simp [keysOf, colsConcat]
  | cons f rest ih =>
    show List.foldl (fun acc f => acc ++ f.1 ++ ",") (a ++ f.1 ++ ",") rest =
      a ++ colsConcat (keysOf (f :: rest))
    rw [ih]
    simp [keysOf, colsConcat, String.append_assoc]

/-! The claims. -/

/-- C1: the specification claims `insert` builds the well-formed statement
`INSERT INTO table (c1, c2, ...) VALUES (?, ?, ...)`, with both lists closed
by a parenthesis and no trailing comma. Evaluating the code's builder on the
category mapping shows the text it actually constructs: the column list is
never closed, the VALUES list keeps its trailing comma, and the whole
statement contains no closing parenthesis at all, so it is not the
spec-described statement. -/
theorem c1_insert_sql_text_malformed :
    insertSqlBuild "category" demoCategoryMapping =
      some "INSERT INTO category( description,name VALUES (?, ?," ∧
    insertSqlSpec "category" ["description", "name"] =
      "INSERT INTO category (description, name) VALUES (?, ?)" ∧
    List.count ')' "INSERT INTO category( description,name VALUES (?, ?,".toList = 0 := by
  refine ⟨by decide, by decide, by decide⟩

/-- C2: the specification claims `update` builds
`UPDATE table SET c1 = ?, c2 = ? WHERE id = ?`. The code appends
`columnName + "?, "` without the ` = `, so the SET clause it constructs is
`description?, name?`, not the spec-described text; the binding half of the
claim does hold: the mapping's values are bound at indices 1..n in mapping
order and the id at the last index. -/
theorem c2_update_sql_text_malformed :
    updateSqlBuild "category" demoCategoryMapping =
      some "UPDATE category SET description?, name? WHERE id = ?;" ∧
    updateSqlSpec "category" ["description", "name"] =
      "UPDATE category SET description = ?, name = ? WHERE id = ?" ∧
    ("UPDATE category SET description?, name? WHERE id = ?;" ≠
      "UPDATE category SET description = ?, name = ? WHERE id = ?") ∧
    (bindParams demoCategoryMapping ("Tools", "Hand tools") 1).2 ++
        [((bindParams demoCategoryMapping ("Tools", "Hand tools") 1).1, SqlParam.pInt 7)] =
      [(1, SqlParam.pText "Hand tools"), (2, SqlParam.pText "Tools"), (3, SqlParam.pInt 7)] := by
  refine ⟨by decide, by decide, by decide, by decide⟩

/-- C3: `remove` issues `DELETE FROM table WHERE id = ?` with the id bound,
and returns failure exactly when the store rejects preparation or
execution; the affected-row count is never inspected, so "no such id" and
"deleted" are indistinguishable in the result. -/
theorem c3_remove_reports_store_rejection {σ : Type} (conn : Sqlite3 σ) (s : σ)
    (t : String) (id : Int) :
    removeSql t = "DELETE FROM " ++ t ++ " WHERE id = ?" ∧
    ((removeImpl conn s t id).1 = false ↔
      (conn.prepare (removeSql t) = false ∨
        conn.step (removeSql t) [(1, SqlParam.pInt id)] s = none)) := by
  refine ⟨rfl, ?_⟩
  cases hp : conn.prepare (removeSql t) with
  | false => simp [removeImpl, hp]
  | true =>
    cases hs : conn.step (removeSql t) [(1, SqlParam.pInt id)] s with
    | none => simp [removeImpl, hp, hs]
    | some r => simp [removeImpl, hp, hs]

/-- C4: when `update`'s statement is accepted and executes to completion but
affects zero rows, the call logs the warning and still returns `true`, and
the store state it returns is the unchanged initial state. -/
theorem c4_update_zero_rows_reports_success {σ T : Type} (conn : Sqlite3 σ) (s s' : σ)
    (t : String) (id : Int) (data : T) (m : FieldMapping T) (sql : String)
    (hsql : updateSqlBuild t m = some sql)
    (hprep : conn.prepare sql = true)
    (hstep : conn.step sql ((bindParams m data 1).2 ++
        [((bindParams m data 1).1, SqlParam.pInt id)]) s = some (s' , 0)) :
    updateImpl conn s t id data m =
      (true, s, ["No rows were updated. Check if the ID exists."]) := by
  have hfix : s' = s := conn.zeroChangesFix _ _ _ _ hstep
  subst hfix
  simp [updateImpl, hsql, hprep, hstep]

/-- Witness for C4 at a concrete store that accepts the statement and
reports zero affected rows. -/
theorem c4_update_zero_rows_reports_success_witness :
    updateImpl acceptAllConn 0 "category" 7 ("Tools", "Hand tools") demoCategoryMapping =
      (true, 0, ["No rows were updated. Check if the ID exists."]) :=
  c4_update_zero_rows_reports_success acceptAllConn 0 0 "category" 7 ("Tools", "Hand tools")
    demoCategoryMapping "UPDATE category SET description?, name? WHERE id = ?;"
    (by decide) rfl rfl

/-- C5: the specification claims the empty field mapping must not yield a
malformed statement. Neither builder performs an out-of-range `pop_back`
(both return `some`), but the texts they construct are
`INSERT INTO category( VALUES ` (its parentheses unbalanced) and
`UPDATE category SE WHERE id = ?;` (the keyword SET truncated), neither of
which is a valid statement. -/
theorem c5_empty_mapping_sql_texts :
    insertSqlBuild "category" ([] : FieldMapping Unit) = some "INSERT INTO category( VALUES " ∧
    updateSqlBuild "category" ([] : FieldMapping Unit) = some "UPDATE category SE WHERE id = ?;" ∧
    List.count '(' "INSERT INTO category( VALUES ".toList ≠
      List.count ')' "INSERT INTO category( VALUES ".toList := by
  refine ⟨by decide, by decide, by decide⟩

/-- C6: the specification requires absent optional values to be bound as SQL
null, but the value type `std::variant<std::string, int, double>` has no
null alternative and the binding loops bind every extracted value as
integer, real or text: no parameter handed to the store by `insert` (the
mapping's values) or `update` (the mapping's values plus the id) is ever a
null binding. -/
theorem c6_bind_never_null {T : Type} (m : FieldMapping T) (data : T) (id : Int) :
    List.filter (fun p => p.2 == SqlParam.pNull) (bindParams m data 1).2 = [] ∧
    List.filter (fun p => p.2 == SqlParam.pNull)
      ((bindParams m data 1).2 ++ [((bindParams m data 1).1, SqlParam.pInt id)]) = [] := by
  refine ⟨bindParams_no_null m data 1, ?_⟩
  rw [List.filter_append, bindParams_no_null m data 1]
  rfl

/-- C7: `init` attempts its six statements in source order — the
foreign-key pragma first, then the creation of category, suppliers, item,
user and transaction_records — whatever each execution returns (a failure
never aborts the remaining statements), and the messages logged are exactly
the error messages of the failed statements, in order. -/
theorem c7_init_statement_sequence (exec : String → DbFile → Option DbFile) (s : DbFile) :
    List.map (fun p => p.1.1) (initRun exec s).2.1 =
      [pragmaForeignKeys, categoryTableQuery, supplierTableQuery, itemTableQuery,
        userTableQuery, transactionTableQuery] ∧
    (initRun exec s).2.2 =
      List.map (fun p => p.1.2)
        (List.filter (fun p => p.2 == false) (initRun exec s).2.1) := by
  constructor
  · have h := runStmts_trace exec initStmtList s
    calc List.map (fun p : (String × String) × Bool => p.1.1) (initRun exec s).2.1
        = List.map Prod.fst (List.map Prod.fst (runStmts exec initStmtList s).2.1) := by
          simp [initRun, List.map_map]
      _ = List.map Prod.fst initStmtList := by rw [h]
      _ = [pragmaForeignKeys, categoryTableQuery, supplierTableQuery, itemTableQuery,
            userTableQuery, transactionTableQuery] := rfl
  · exact runStmts_log exec initStmtList s

/-- C8: running `init` on a store it has already initialized makes no
change and logs no error: every creation statement is of the
`CREATE TABLE IF NOT EXISTS` form, so the second run finds every table
present and each statement succeeds as a no-op. -/
theorem c8_init_idempotent (s : DbFile) :
    (initRun sqliteExec (initRun sqliteExec s).1).1 = (initRun sqliteExec s).1 ∧
    (initRun sqliteExec (initRun sqliteExec s).1).2.2 = [] ∧
    List.map (fun p => List.isPrefixOf "CREATE TABLE IF NOT EXISTS ".toList p.1.toList)
        (List.drop 1 initStmtList) = [true, true, true, true, true] := by
  refine ⟨?_, ?_, by decide⟩
  · simp only [initRun_sqliteExec]
    have hcat : "category" ∈ ensure "transaction_records" (ensure "user" (ensure "item"
        (ensure "suppliers" (ensure "category" s.tables)))) :=
      mem_ensure_mono _ (mem_ensure_mono _ (mem_ensure_mono _ (mem_ensure_mono _
        (mem_ensure_self _ _))))
    have hsup : "suppliers" ∈ ensure "transaction_records" (ensure "user" (ensure "item"
        (ensure "suppliers" (ensure "category" s.tables)))) :=
      mem_ensure_mono _ (mem_ensure_mono _ (mem_ensure_mono _ (mem_ensure_self _ _)))
    have hit : "item" ∈ ensure "transaction_records" (ensure "user" (ensure "item"
        (ensure "suppliers" (ensure "category" s.tables)))) :=
      mem_ensure_mono _ (mem_ensure_mono _ (mem_ensure_self _ _))
    have hus : "user" ∈ ensure "transaction_records" (ensure "user" (ensure "item"
        (ensure "suppliers" (ensure "category" s.tables)))) :=
      mem_ensure_mono _ (mem_ensure_self _ _)
    have htr : "transaction_records" ∈ ensure "transaction_records" (ensure "user" (ensure "item"
        (ensure "suppliers" (ensure "category" s.tables)))) :=
      mem_ensure_self _ _
    simp only [ensure_eq_of_mem hcat, ensure_eq_of_mem hsup, ensure_eq_of_mem hit,
      ensure_eq_of_mem hus, ensure_eq_of_mem htr]
  · simp [initRun_sqliteExec]

/-- C9: in `insert`, the SQL-building loop and the binding loop traverse the
same mapping in the same order: the generated column list is exactly the
mapping's keys in iteration order (each followed by a comma), and the
parameter bound at placeholder `i + 1` is the value extracted by the getter
of the mapping entry at position `i` — the entry whose column name is the
i-th name of that column list. -/
theorem c9_insert_binds_follow_columns {T : Type} (t : String) (m : FieldMapping T)
    (data : T) (i : Nat) :
    List.foldl (fun acc f => acc ++ f.1 ++ ",") ("INSERT INTO " ++ t ++ "( ") m =
      ("INSERT INTO " ++ t ++ "( ") ++ colsConcat (keysOf m) ∧
    List.get? (keysOf m) i = Option.map Prod.fst (List.get? m i) ∧
    List.get? (bindParams m data 1).2 i =
      Option.map (fun f => (i + 1, bindValue (f.2 data))) (List.get? m i) := by
  refine ⟨insert_cols_concat m _, ?_, ?_⟩
  · simp [keysOf]
  · simpa [Nat.add_comm] using bindParams_get? m data 1 i

/-- C10: the SQL texts of `insert` and `update` are functions of the table
name and the mapping's key set alone: two calls whose mappings have the
same (sorted, duplicate-free, as a `std::map` yields them) column names
produce character-identical statements, whatever their record types,
getters and extracted values. -/
theorem c10_sql_text_depends_only_on_keys {T₁ T₂ : Type} (t : String)
    (m₁ : FieldMapping T₁) (m₂ : FieldMapping T₂)
    (h₁ : List.Sorted (fun a b : String => a < b) (keysOf m₁))
    (h₂ : List.Sorted (fun a b : String => a < b) (keysOf m₂))
    (hmem : ∀ k, k ∈ keysOf m₁ ↔ k ∈ keysOf m₂) :
    insertSqlBuild t m₁ = insertSqlBuild t m₂ ∧
    updateSqlBuild t m₁ = updateSqlBuild t m₂ := by
  have hk : keysOf m₁ = keysOf m₂ := sorted_mem_eq h₁ h₂ hmem
  constructor
  · rw [insertSqlBuild_keys, insertSqlBuild_keys, hk]
  · rw [updateSqlBuild_keys, updateSqlBuild_keys, hk]

/-- The key sequence both demo category mappings yield, sorted the way a
`std::map` iterates. -/
theorem demo_keys_sorted :
    List.Sorted (fun a b : String => a < b) ["description", "name"] := by
  simp only [List.sorted_cons, List.mem_singleton, forall_eq, List.sorted_singleton,
    and_true, String.lt_iff_toList_lt]
  decide

/-- Witness for C10: two mappings over different record types with the same
column names yield identical insert and update texts. -/
theorem c10_sql_text_depends_only_on_keys_witness :
    insertSqlBuild "category" demoCategoryMapping =
      insertSqlBuild "category" demoCategoryMappingB ∧
    updateSqlBuild "category" demoCategoryMapping =
      updateSqlBuild "category" demoCategoryMappingB :=
  c10_sql_text_depends_only_on_keys "category" demoCategoryMapping demoCategoryMappingB
    demo_keys_sorted demo_keys_sorted (fun _ => Iff.rfl)

end InventoryDb
